import Mathlib

/-!
Verification development for the sleep-tracker bot (`src/bot.py`).

The embedding models the core logic at seconds granularity:

* a `datetime` is the number of seconds since a fixed local-time epoch
  (midnight of day 0); the `hour`/`minute` components and the `HH:MM`
  formatting of `strftime` are derived from it with floor division,
  matching Python's naive local datetimes;
* the global dict `user_sleep_data` is a function `UserId → Option datetime`;
* `handle_buttons` is modelled by the ordered list of primitive effects
  (store writes and outbound messages) it performs, in source order, so
  that partial executions (a notification call raising midway) can be
  reasoned about as prefixes of the trace;
* Python's `timedelta.seconds` attribute of `end - start` is the
  floor-modulus `(end - start).emod 86400`, always in `[0, 86400)`.
-/

/-- User identifiers are Telegram numeric ids; only equality is used. -/
abbrev UserId := Int

/-- A naive local timestamp, in whole seconds since midnight of day 0. -/
structure datetime where
  epochSeconds : Int
deriving DecidableEq

/-- Hour component (0..23) of a timestamp, as in Python `datetime.hour`. -/
def datetime.hour (d : datetime) : Int :=
  (d.epochSeconds / 3600) % 24

/-- Minute component (0..59) of a timestamp, as in Python `datetime.minute`. -/
def datetime.minute (d : datetime) : Int :=
  (d.epochSeconds / 60) % 60

/-- Zero-padded two-digit rendering used by `strftime` fields. -/
def pad2 (n : Int) : String :=
  if n < 10 then "0" ++ toString n else toString n

/-- Python `strftime("%H:%M")`. -/
def datetime.hhmm (d : datetime) : String :=
  pad2 d.hour ++ ":" ++ pad2 d.minute

/-- Convenience constructor: the timestamp at hour `h`, minute `m` of day 0. -/
def dtime (h m : Int) : datetime :=
  ⟨h * 3600 + m * 60⟩

/-- Return "day" or "night" based on start time hour (`get_sleep_type`). -/
def get_sleep_type (start_time : datetime) : String :=
  if 12 ≤ start_time.hour ∧ start_time.hour < 18 then "day" else "night"

/-- One inline keyboard button: display text and callback payload. -/
structure Button where
  text : String
  callback_data : String
deriving DecidableEq

/-- Callback payload of the start button. -/
def startData : String := "start_sleep"

/-- Callback payload of the stop button. -/
def stopData : String := "stop_sleep"

/-- Callback payload of the cancel button. -/
def cancelData : String := "cancel_sleep"

/-- The `main_menu()` keyboard: a single start button. -/
def main_menu : List (List Button) :=
  [[⟨"😴 Start sleep", startData⟩]]

/-- The `sleep_menu()` keyboard: stop and cancel buttons. -/
def sleep_menu : List (List Button) :=
  [[⟨"🛑 Stop sleep", stopData⟩], [⟨"❌ Cancel", cancelData⟩]]

/-- Message text of the start branch: `f"Sleep started at {start_time} 💤"`. -/
def sleepStartedText (now : datetime) : String :=
  "Sleep started at " ++ now.hhmm ++ " 💤"

/-- Message text of the stop branch when the user has no session. -/
def notStartedText : String := "You haven’t started sleeping yet 😅"

/-- Follow-up message sent after a successful stop. -/
def readyText : String := "Ready for next nap? 😴"

/-- Message text of the cancel branch. -/
def canceledText : String := "Sleep tracking canceled. Ready when you are 💤"

/-- The transient values the stop branch computes for a finished session:
original start time, end time, displayed hours and minutes, and the
`get_sleep_type` label of the start time. -/
structure StopSummary where
  start_time : datetime
  end_time : datetime
  hours : Int
  minutes : Int
  sleep_type : String
deriving DecidableEq

/-- Computation of the stop branch (bot.py lines 110-120): Python
`(end_time - start_time).seconds` is the floor-modulus by 86400, then
`divmod(·, 3600)` and `divmod(·, 60)` split off hours and minutes. -/
def mkStopSummary (start_time end_time : datetime) : StopSummary :=
  let secs := (end_time.epochSeconds - start_time.epochSeconds) % 86400
  let hours := secs / 3600
  let remainder := secs % 3600
  let minutes := remainder / 60
  { start_time := start_time
    end_time := end_time
    hours := hours
    minutes := minutes
    sleep_type := get_sleep_type start_time }

/-- The `f"{hours}h {minutes}m"` rendering. -/
def duration_str (s : StopSummary) : String :=
  toString s.hours ++ "h " ++ toString s.minutes ++ "m"

/-- The text of the summary message edited into the chat on stop. -/
def summary_text (s : StopSummary) : String :=
  let emoji := if s.sleep_type = "day" then "🌞" else "🌙"
  emoji ++ " " ++ s.sleep_type.capitalize ++ " sleep\n" ++
    s.start_time.hhmm ++ "–" ++ s.end_time.hhmm ++ " (" ++ duration_str s ++ ")"

/-- The in-memory session store `user_sleep_data`: at most one start time
per user. -/
abbrev Store := UserId → Option datetime

/-- Primitive effects performed by `handle_buttons`, in source order:
dict writes on `user_sleep_data`, and the two kinds of outbound
notification (`edit_message_text` and `send_message`). -/
inductive Effect where
  | storeSet (u : UserId) (t : datetime)
  | storePop (u : UserId)
  | edit (text : String) (markup : Option (List (List Button)))
  | send (text : String) (markup : Option (List (List Button)))
deriving DecidableEq

/-- Effect of one primitive on the store; notifications do not touch it. -/
def applyEffect (store : Store) : Effect → Store
  | Effect.storeSet u t => fun v => if v = u then some t else store v
  | Effect.storePop u => fun v => if v = u then none else store v
  | Effect.edit _ _ => store
  | Effect.send _ _ => store

/-- Left-to-right execution of a list of effects on the store. -/
def applyEffects (store : Store) (l : List Effect) : Store :=
  l.foldl applyEffect store

/-- Whether an effect is an outbound notification (may fail at runtime). -/
def isNotify : Effect → Bool
  | Effect.edit _ _ => true
  | Effect.send _ _ => true
  | _ => false

/-- The ordered trace of primitive effects `handle_buttons` performs for a
callback `data` from user `user_id`, when `datetime.now()` returns `now`
and the store currently holds `store`. Mirrors bot.py lines 92-143. -/
def handle_buttons_trace (data : String) (user_id : UserId) (now : datetime)
    (store : Store) : List Effect :=
  if data = startData then
    [Effect.storeSet user_id now,
     Effect.edit (sleepStartedText now) (some sleep_menu)]
  else if data = stopData then
    match store user_id with
    | none => [Effect.edit notStartedText (some main_menu)]
    | some start_time =>
        [Effect.storePop user_id,
         Effect.edit (summary_text (mkStopSummary start_time now)) none,
         Effect.send readyText (some main_menu)]
  else if data = cancelData then
    [Effect.storePop user_id,
     Effect.edit canceledText (some main_menu)]
  else []

/-- Full successful run of `handle_buttons`: the resulting store and the
notifications issued, in order. -/
def handle_buttons (data : String) (user_id : UserId) (now : datetime)
    (store : Store) : Store × List Effect :=
  let tr := handle_buttons_trace data user_id now store
  (applyEffects store tr, tr.filter isNotify)

/-- The trace of the stop branch when the user is tracking. -/
lemma trace_stop_some (u : UserId) (now : datetime) (store : Store) (t : datetime)
    (h : store u = some t) :
    handle_buttons_trace stopData u now store =
      [Effect.storePop u,
       Effect.edit (summary_text (mkStopSummary t now)) none,
       Effect.send readyText (some main_menu)] := by
  unfold handle_buttons_trace
  rw [if_neg (by decide : ¬ stopData = startData), if_pos rfl, h]

/-- The trace of the stop branch when the user is idle. -/
lemma trace_stop_none (u : UserId) (now : datetime) (store : Store)
    (h : store u = none) :
    handle_buttons_trace stopData u now store =
      [Effect.edit notStartedText (some main_menu)] := by
  unfold handle_buttons_trace
  rw [if_neg (by decide : ¬ stopData = startData), if_pos rfl, h]

/-- C1: spec claims the day window is 6 ≤ h < 18, but `get_sleep_type`
returns "night" for hours 6..11; the hour-6 timestamp refutes the claimed
equivalence. -/
theorem C1_counterexample :
    ¬ (∀ t : datetime, get_sleep_type t = "day" ↔ (6 ≤ t.hour ∧ t.hour < 18)) := by
  intro h
  have h6 : get_sleep_type (dtime 6 0) = "day" := (h (dtime 6 0)).mpr (by decide)
  exact absurd h6 (by decide)

/-- C1 (amended): `get_sleep_type` returns "day" exactly when the hour h of
the start time satisfies 12 ≤ h < 18 and "night" otherwise; in particular
05:59, 06:00 and 11:59 classify as night, 12:00 and 17:59 as day, and
18:00 as night. -/
theorem C1_classifier_window (t : datetime) :
    (get_sleep_type t = "day" ↔ (12 ≤ t.hour ∧ t.hour < 18))
    ∧ (get_sleep_type t = "night" ↔ ¬ (12 ≤ t.hour ∧ t.hour < 18))
    ∧ get_sleep_type (dtime 5 59) = "night"
    ∧ get_sleep_type (dtime 6 0) = "night"
    ∧ get_sleep_type (dtime 11 59) = "night"
    ∧ get_sleep_type (dtime 12 0) = "day"
    ∧ get_sleep_type (dtime 17 59) = "day"
    ∧ get_sleep_type (dtime 18 0) = "night" := by
  refine ⟨?_, ?_, by decide, by decide, by decide, by decide, by decide, by decide⟩
  · by_cases h : 12 ≤ t.hour ∧ t.hour < 18 <;> simp [get_sleep_type, h]
  · by_cases h : 12 ≤ t.hour ∧ t.hour < 18 <;> simp [get_sleep_type, h]

/-- C2: starting at time t and then stopping at time e with no intervening
start removes the user's entry, and the emitted summary records start time
t and the category `get_sleep_type t` of the original start time. -/
theorem C2_start_then_stop (u : UserId) (t e : datetime) (store : Store) :
    (handle_buttons stopData u e (handle_buttons startData u t store).1).1 u = none
    ∧ (handle_buttons stopData u e (handle_buttons startData u t store).1).2 =
        [Effect.edit (summary_text (mkStopSummary t e)) none,
         Effect.send readyText (some main_menu)]
    ∧ (mkStopSummary t e).start_time = t
    ∧ (mkStopSummary t e).sleep_type = get_sleep_type t := by
  have hs1 : (handle_buttons startData u t store).1 u = some t := by
    show (if u = u then some t else store u) = some t
    rw [if_pos rfl]
  have htr := trace_stop_some u e (handle_buttons startData u t store).1 t hs1
  refine ⟨?_, ?_, rfl, rfl⟩
  · show applyEffects (handle_buttons startData u t store).1
      (handle_buttons_trace stopData u e (handle_buttons startData u t store).1) u = none
    rw [htr]
    show (if u = u then none else (handle_buttons startData u t store).1 u) = none
    rw [if_pos rfl]
  · show (handle_buttons_trace stopData u e
      (handle_buttons startData u t store).1).filter isNotify = _
    rw [htr]
    rfl

/-- C3: stop and cancel on an idle user leave the store unchanged at every
key and produce the "not started" and "canceled" responses. -/
theorem C3_idle_stop_cancel (u : UserId) (now : datetime) (store : Store)
    (h : store u = none) :
    handle_buttons stopData u now store =
      (store, [Effect.edit notStartedText (some main_menu)])
    ∧ handle_buttons cancelData u now store =
      (store, [Effect.edit canceledText (some main_menu)]) := by
  constructor
  · have htr := trace_stop_none u now store h
    show (applyEffects store (handle_buttons_trace stopData u now store),
      (handle_buttons_trace stopData u now store).filter isNotify) = _
    rw [htr]
    rfl
  · have h1 : (handle_buttons cancelData u now store).1 = store := by
      funext v
      show (if v = u then none else store v) = store v
      by_cases hv : v = u
      · rw [if_pos hv, hv, h]
      · rw [if_neg hv]
    calc handle_buttons cancelData u now store
        = ((handle_buttons cancelData u now store).1,
           (handle_buttons cancelData u now store).2) := rfl
      _ = (store, [Effect.edit canceledText (some main_menu)]) := by
            rw [h1]
            rfl

/-- C3 witness at a concrete idle user and empty store. -/
theorem C3_witness :
    handle_buttons stopData 7 (dtime 1 0) (fun _ => none) =
      ((fun _ => none : Store), [Effect.edit notStartedText (some main_menu)])
    ∧ handle_buttons cancelData 7 (dtime 1 0) (fun _ => none) =
      ((fun _ => none : Store), [Effect.edit canceledText (some main_menu)]) :=
  C3_idle_stop_cancel 7 (dtime 1 0) (fun _ => none) rfl

/-- C4: a second start overwrites the stored start time; stopping then
reports start time t2, not t1, and neither start emits a summary for the
discarded session. -/
theorem C4_double_start (u : UserId) (t1 t2 e : datetime) (store : Store)
    (h : t1.epochSeconds < t2.epochSeconds) :
    (handle_buttons startData u t1 store).2 =
        [Effect.edit (sleepStartedText t1) (some sleep_menu)]
    ∧ (handle_buttons startData u t2 (handle_buttons startData u t1 store).1).1 u = some t2
    ∧ (handle_buttons startData u t2 (handle_buttons startData u t1 store).1).2 =
        [Effect.edit (sleepStartedText t2) (some sleep_menu)]
    ∧ (handle_buttons stopData u e
        (handle_buttons startData u t2 (handle_buttons startData u t1 store).1).1).2 =
        [Effect.edit (summary_text (mkStopSummary t2 e)) none,
         Effect.send readyText (some main_menu)]
    ∧ (mkStopSummary t2 e).start_time = t2
    ∧ (mkStopSummary t2 e).start_time ≠ t1 := by
  have hs2 : (handle_buttons startData u t2 (handle_buttons startData u t1 store).1).1 u =
      some t2 := by
    show (if u = u then some t2 else (handle_buttons startData u t1 store).1 u) = some t2
    rw [if_pos rfl]
  have htr := trace_stop_some u e
    (handle_buttons startData u t2 (handle_buttons startData u t1 store).1).1 t2 hs2
  refine ⟨rfl, hs2, rfl, ?_, rfl, ?_⟩
  · show (handle_buttons_trace stopData u e
      (handle_buttons startData u t2 (handle_buttons startData u t1 store).1).1).filter
        isNotify = _
    rw [htr]
    rfl
  · show t2 ≠ t1
    intro heq
    rw [heq] at h
    exact lt_irrefl _ h

/-- C4 witness at concrete times 01:00 < 02:00 and stop at 03:00. -/
theorem C4_witness :
    (handle_buttons startData 5 (dtime 1 0) (fun _ => none)).2 =
        [Effect.edit (sleepStartedText (dtime 1 0)) (some sleep_menu)]
    ∧ (handle_buttons startData 5 (dtime 2 0)
        (handle_buttons startData 5 (dtime 1 0) (fun _ => none)).1).1 5 = some (dtime 2 0)
    ∧ (handle_buttons startData 5 (dtime 2 0)
        (handle_buttons startData 5 (dtime 1 0) (fun _ => none)).1).2 =
        [Effect.edit (sleepStartedText (dtime 2 0)) (some sleep_menu)]
    ∧ (handle_buttons stopData 5 (dtime 3 0)
        (handle_buttons startData 5 (dtime 2 0)
          (handle_buttons startData 5 (dtime 1 0) (fun _ => none)).1).1).2 =
        [Effect.edit (summary_text (mkStopSummary (dtime 2 0) (dtime 3 0))) none,
         Effect.send readyText (some main_menu)]
    ∧ (mkStopSummary (dtime 2 0) (dtime 3 0)).start_time = dtime 2 0
    ∧ (mkStopSummary (dtime 2 0) (dtime 3 0)).start_time ≠ dtime 1 0 :=
  C4_double_start 5 (dtime 1 0) (dtime 2 0) (dtime 3 0) (fun _ => none) (by decide)

/-- C5: for a same-day stop with end ≥ start, the displayed hours and
minutes are the whole-hour / remaining whole-minute decomposition of the
elapsed seconds with the leftover seconds truncated, rendered as
"<H>h <M>m"; 06:10 to 08:45 renders "2h 35m". -/
theorem C5_same_day_duration (s e : datetime)
    (hle : s.epochSeconds ≤ e.epochSeconds)
    (hday : s.epochSeconds / 86400 = e.epochSeconds / 86400) :
    (mkStopSummary s e).hours = (e.epochSeconds - s.epochSeconds) / 3600
    ∧ (mkStopSummary s e).minutes = ((e.epochSeconds - s.epochSeconds) % 3600) / 60
    ∧ (mkStopSummary s e).hours * 3600 + (mkStopSummary s e).minutes * 60 ≤
        e.epochSeconds - s.epochSeconds
    ∧ e.epochSeconds - s.epochSeconds <
        (mkStopSummary s e).hours * 3600 + (mkStopSummary s e).minutes * 60 + 60
    ∧ duration_str (mkStopSummary s e) =
        toString (mkStopSummary s e).hours ++ "h " ++
          toString (mkStopSummary s e).minutes ++ "m"
    ∧ duration_str (mkStopSummary (dtime 6 10) (dtime 8 45)) = "2h 35m" := by
  have hh : (mkStopSummary s e).hours =
      ((e.epochSeconds - s.epochSeconds) % 86400) / 3600 := rfl
  have hm : (mkStopSummary s e).minutes =
      (((e.epochSeconds - s.epochSeconds) % 86400) % 3600) / 60 := rfl
  refine ⟨?_, ?_, ?_, ?_, rfl, by decide⟩ <;> simp only [hh, hm] <;> omega

/-- C5 witness at 06:10 → 08:45. -/
theorem C5_witness :
    (mkStopSummary (dtime 6 10) (dtime 8 45)).hours =
        ((dtime 8 45).epochSeconds - (dtime 6 10).epochSeconds) / 3600
    ∧ (mkStopSummary (dtime 6 10) (dtime 8 45)).minutes =
        (((dtime 8 45).epochSeconds - (dtime 6 10).epochSeconds) % 3600) / 60
    ∧ (mkStopSummary (dtime 6 10) (dtime 8 45)).hours * 3600 +
        (mkStopSummary (dtime 6 10) (dtime 8 45)).minutes * 60 ≤
        (dtime 8 45).epochSeconds - (dtime 6 10).epochSeconds
    ∧ (dtime 8 45).epochSeconds - (dtime 6 10).epochSeconds <
        (mkStopSummary (dtime 6 10) (dtime 8 45)).hours * 3600 +
        (mkStopSummary (dtime 6 10) (dtime 8 45)).minutes * 60 + 60
    ∧ duration_str (mkStopSummary (dtime 6 10) (dtime 8 45)) =
        toString (mkStopSummary (dtime 6 10) (dtime 8 45)).hours ++ "h " ++
          toString (mkStopSummary (dtime 6 10) (dtime 8 45)).minutes ++ "m"
    ∧ duration_str (mkStopSummary (dtime 6 10) (dtime 8 45)) = "2h 35m" :=
  C5_same_day_duration (dtime 6 10) (dtime 8 45) (by decide) (by decide)

/-- C6: stopping a tracking user always succeeds — the handler emits the
summary and follow-up for every end time, including end before start —
and the displayed hours and minutes are never negative. -/
theorem C6_stop_nonneg (u : UserId) (now : datetime) (store : Store) (t : datetime)
    (h : store u = some t) :
    (handle_buttons stopData u now store).2 =
      [Effect.edit (summary_text (mkStopSummary t now)) none,
       Effect.send readyText (some main_menu)]
    ∧ 0 ≤ (mkStopSummary t now).hours
    ∧ 0 ≤ (mkStopSummary t now).minutes := by
  have htr := trace_stop_some u now store t h
  refine ⟨?_, ?_, ?_⟩
  · show (handle_buttons_trace stopData u now store).filter isNotify = _
    rw [htr]
    rfl
  · show 0 ≤ ((now.epochSeconds - t.epochSeconds) % 86400) / 3600
    omega
  · show 0 ≤ (((now.epochSeconds - t.epochSeconds) % 86400) % 3600) / 60
    omega

/-- C6 witness with the clock running backwards: start 10:00, stop 09:00. -/
theorem C6_witness :
    (handle_buttons stopData 1 (dtime 9 0)
        (fun v => if v = 1 then some (dtime 10 0) else none)).2 =
      [Effect.edit (summary_text (mkStopSummary (dtime 10 0) (dtime 9 0))) none,
       Effect.send readyText (some main_menu)]
    ∧ 0 ≤ (mkStopSummary (dtime 10 0) (dtime 9 0)).hours
    ∧ 0 ≤ (mkStopSummary (dtime 10 0) (dtime 9 0)).minutes :=
  C6_stop_nonneg 1 (dtime 9 0) (fun v => if v = 1 then some (dtime 10 0) else none)
    (dtime 10 0) (by decide)

/-- C7: the displayed duration is computed from the elapsed time modulo
24 hours — whole days are discarded: hours stay in 0..23 and minutes in
0..59, shifting the end time by any whole number of days leaves the
display unchanged, and an actual 25h 5m session renders as "1h 5m". -/
theorem C7_day_component_only (s e : datetime) (k : Int) :
    (mkStopSummary s e).hours ≤ 23
    ∧ (mkStopSummary s e).minutes ≤ 59
    ∧ (mkStopSummary s ⟨e.epochSeconds + k * 86400⟩).hours = (mkStopSummary s e).hours
    ∧ (mkStopSummary s ⟨e.epochSeconds + k * 86400⟩).minutes =
        (mkStopSummary s e).minutes
    ∧ duration_str (mkStopSummary (dtime 0 0) ⟨90300⟩) = "1h 5m" := by
  have hh : (mkStopSummary s e).hours =
      ((e.epochSeconds - s.epochSeconds) % 86400) / 3600 := rfl
  have hm : (mkStopSummary s e).minutes =
      (((e.epochSeconds - s.epochSeconds) % 86400) % 3600) / 60 := rfl
  have hh2 : (mkStopSummary s ⟨e.epochSeconds + k * 86400⟩).hours =
      ((e.epochSeconds + k * 86400 - s.epochSeconds) % 86400) / 3600 := rfl
  have hm2 : (mkStopSummary s ⟨e.epochSeconds + k * 86400⟩).minutes =
      (((e.epochSeconds + k * 86400 - s.epochSeconds) % 86400) % 3600) / 60 := rfl
  refine ⟨?_, ?_, ?_, ?_, by decide⟩ <;> simp only [hh, hm, hh2, hm2] <;> omega

/-- C8: cancel is idempotent — both of two consecutive cancels produce the
same single "canceled" response, and the second leaves the store exactly
as the first left it. -/
theorem C8_cancel_idempotent (u : UserId) (n1 n2 : datetime) (store : Store) :
    (handle_buttons cancelData u n1 store).2 =
        [Effect.edit canceledText (some main_menu)]
    ∧ (handle_buttons cancelData u n2 (handle_buttons cancelData u n1 store).1).2 =
        [Effect.edit canceledText (some main_menu)]
    ∧ (handle_buttons cancelData u n2 (handle_buttons cancelData u n1 store).1).1 =
        (handle_buttons cancelData u n1 store).1 := by
  refine ⟨rfl, rfl, ?_⟩
  funext v
  show (if v = u then none else (handle_buttons cancelData u n1 store).1 v) =
    (if v = u then none else store v)
  by_cases hv : v = u
  · rw [if_pos hv, if_pos hv]
  · rw [if_neg hv, if_neg hv]
    show (if v = u then none else store v) = store v
    rw [if_neg hv]

/-- C9: in the stop branch of a tracking user, the dict `pop` is the first
effect of the trace, strictly before both notifications, and every
partial execution that got past the pop (a prefix of length ≥ 1, such as
one truncated by a failing notification) leaves the user removed from the
store. -/
theorem C9_pop_precedes_notifications (u : UserId) (now : datetime) (store : Store)
    (t : datetime) (h : store u = some t) :
    handle_buttons_trace stopData u now store =
      [Effect.storePop u,
       Effect.edit (summary_text (mkStopSummary t now)) none,
       Effect.send readyText (some main_menu)]
    ∧ ∀ n : Nat, 1 ≤ n →
        applyEffects store ((handle_buttons_trace stopData u now store).take n) u =
          none := by
  have htr := trace_stop_some u now store t h
  refine ⟨htr, ?_⟩
  intro n hn
  rw [htr]
  obtain _ | n := n
  · omega
  · obtain _ | n := n
    · show (if u = u then none else store u) = none
      rw [if_pos rfl]
    · obtain _ | n := n
      · show (if u = u then none else store u) = none
        rw [if_pos rfl]
      · rw [List.take_succ_cons, List.take_succ_cons, List.take_succ_cons,
          List.take_nil]
        show (if u = u then none else store u) = none
        rw [if_pos rfl]

/-- C9 witness: concrete tracking store; the trace truncated after the pop
(and after the first notification) already has the user removed. -/
theorem C9_witness :
    applyEffects (fun v => if v = 3 then some (dtime 22 0) else none)
        ((handle_buttons_trace stopData 3 (dtime 23 0)
          (fun v => if v = 3 then some (dtime 22 0) else none)).take 2) 3 = none :=
  (C9_pop_precedes_notifications 3 (dtime 23 0)
    (fun v => if v = 3 then some (dtime 22 0) else none) (dtime 22 0) (by decide)).2
    2 (by decide)

/-- C10: handling any callback for user u never changes another user's
entry: presence and stored start time of every v ≠ u are preserved. -/
theorem C10_frame (data : String) (u v : UserId) (now : datetime) (store : Store)
    (hv : v ≠ u) :
    (handle_buttons data u now store).1 v = store v := by
  show applyEffects store (handle_buttons_trace data u now store) v = store v
  unfold handle_buttons_trace
  by_cases h1 : data = startData
  · rw [if_pos h1]
    show (if v = u then some now else store v) = store v
    rw [if_neg hv]
  · rw [if_neg h1]
    by_cases h2 : data = stopData
    · rw [if_pos h2]
      cases hsu : store u with
      | none => rfl
      | some t =>
          show (if v = u then none else store v) = store v
          rw [if_neg hv]
    · rw [if_neg h2]
      by_cases h3 : data = cancelData
      · rw [if_pos h3]
        show (if v = u then none else store v) = store v
        rw [if_neg hv]
      · rw [if_neg h3]
        rfl

/-- C10 witness: a start by user 1 leaves user 2's (empty) entry intact. -/
theorem C10_witness :
    (handle_buttons startData 1 (dtime 0 0) (fun _ => none)).1 2 =
      (fun _ => none : Store) 2 :=
  C10_frame startData 1 2 (dtime 0 0) (fun _ => none) (by decide)
